import Mathlib

set_option linter.unusedVariables false
set_option linter.unnecessarySeqFocus false

/-!
Shallow embedding of the streaming-channel client of the trade-management
system (`src/WebSocketClient.h`, `src/WebSocketClient.cpp`), with theorems
settling the specification claims about its lifecycle state machine, its
error recording, and its public facade.

Blocking library calls (resolver, TCP connect, SSL handshake, WebSocket
handshake, close, write, read) are modelled by an oracle `Env` giving each
call's outcome: `none` means the call returns normally, `some msg` means it
throws an exception whose `what()` message is `msg`.  Each operation is a
function from the oracle and the implementation state to an `OpResult`:
the final implementation state, the normal return value or thrown message,
the transport/timer calls performed in program order, and the successive
values assigned to the `state_` member.
-/

namespace WSC

/-- Connection state of the client (`WebSocketClient::State`,
    WebSocketClient.h:83-87). -/
inductive State where
  | Disconnected
  | Connecting
  | Connected
deriving DecidableEq

/-- Connection parameters (`WebSocketClient::Config`, WebSocketClient.h:98-105).
    The two `std::chrono::seconds` timeouts are modelled as whole seconds. -/
structure Config where
  host : String
  port : String
  path : String := "/ws"
  verify_ssl : Bool := true
  connect_timeout : Nat := 10
  read_timeout : Nat := 30
deriving DecidableEq

/-- Data members of `WebSocketClient::Impl` that carry abstract state
    (WebSocketClient.cpp:199-207): the configuration, the authoritative
    lifecycle state, and the optional last error message.  The socket and
    SSL stream objects carry no abstract state beyond what the `Env`
    oracle supplies. -/
structure Impl where
  config : Config
  state : State
  last_error : Option String
deriving DecidableEq

/-- Construction (`Impl::Impl`, WebSocketClient.cpp:33-47): the client
    starts `Disconnected` with no error recorded. -/
def mkImpl (cfg : Config) : Impl :=
  { config := cfg, state := State.Disconnected, last_error := none }

/-- One blocking transport or timer library call, in program order. -/
inductive Event where
  | resolve
  | armTimer
  | tcpConnect
  | sslHandshake
  | wsHandshake
  | closeFrame
  | writeFrame
  | readFrame
deriving DecidableEq

/-- Oracle for the outcome of each blocking library call: `none` means the
    call returns normally, `some msg` means it throws with message `msg`.
    A connect-timeout cancellation surfaces as the cancelled in-flight call
    throwing (for example "Operation canceled").  `readData` is the payload
    delivered when the read succeeds. -/
structure Env where
  resolveErr : Option String
  tcpErr : Option String
  sslErr : Option String
  wsErr : Option String
  closeErr : Option String
  writeErr : Option String
  readErr : Option String
  readData : String
deriving DecidableEq

/-- Result of one client operation: final implementation state, normal
    return value or thrown exception message, the transport/timer calls
    performed in program order, and the successive values assigned to the
    `state_` member. -/
structure OpResult (α : Type) where
  impl : Impl
  ret : Except String α
  events : List Event
  writes : List State

/-- The program order of the connect-phase library calls
    (WebSocketClient.cpp:72-94): resolve, then arm the timeout timer, then
    TCP connect, then SSL handshake, then WebSocket handshake. -/
def connectOrder : List Event :=
  [Event.resolve, Event.armTimer, Event.tcpConnect, Event.sslHandshake,
   Event.wsHandshake]

/-- WebSocketClient::Impl::connect (WebSocketClient.cpp:61-105).  Under the
    lock: return at once if already `Connected`; otherwise assign
    `state_ = Connecting` and reset `last_error_`, then, inside the try
    block, resolve the host, arm the timeout timer, connect the socket,
    perform the SSL handshake and the WebSocket handshake in that order;
    on success assign `state_ = Connected`.  The catch block assigns
    `state_ = Disconnected`, records `e.what()` in `last_error_` and
    rethrows. -/
def connect (env : Env) (c : Impl) : OpResult Unit :=
  if c.state = State.Connected then
    { impl := c, ret := Except.ok (), events := [], writes := [] }
  else
    let c1 : Impl := { c with state := State.Connecting, last_error := none }
    let failAt : String → List Event → OpResult Unit := fun msg evs =>
      { impl := { c1 with state := State.Disconnected, last_error := some msg },
        ret := Except.error msg, events := evs,
        writes := [State.Connecting, State.Disconnected] }
    match env.resolveErr with
    | some m => failAt m [Event.resolve]
    | none =>
      match env.tcpErr with
      | some m => failAt m [Event.resolve, Event.armTimer, Event.tcpConnect]
      | none =>
        match env.sslErr with
        | some m => failAt m [Event.resolve, Event.armTimer, Event.tcpConnect,
                              Event.sslHandshake]
        | none =>
          match env.wsErr with
          | some m => failAt m connectOrder
          | none =>
            { impl := { c1 with state := State.Connected },
              ret := Except.ok (), events := connectOrder,
              writes := [State.Connecting, State.Connected] }

/-- WebSocketClient::Impl::disconnect (WebSocketClient.cpp:113-127).  Under
    the lock: if `Connected`, attempt the graceful close inside a try block
    whose catch only logs (it neither records the error nor rethrows);
    in every case assign `state_ = Disconnected` and return normally. -/
def disconnect (env : Env) (c : Impl) : OpResult Unit :=
  if c.state = State.Connected then
    match env.closeErr with
    | some m =>
      { impl := { c with state := State.Disconnected }, ret := Except.ok (),
        events := [Event.closeFrame], writes := [State.Disconnected] }
    | none =>
      { impl := { c with state := State.Disconnected }, ret := Except.ok (),
        events := [Event.closeFrame], writes := [State.Disconnected] }
  else
    { impl := { c with state := State.Disconnected }, ret := Except.ok (),
      events := [], writes := [State.Disconnected] }

/-- WebSocketClient::Impl::send (WebSocketClient.cpp:137-152).  Under the
    lock: if not `Connected`, throw "Not connected" without touching
    anything; otherwise write the message; a write fault is recorded in
    `last_error_` and rethrown; `state_` is never assigned. -/
def send (env : Env) (c : Impl) (message : String) : OpResult Unit :=
  if c.state ≠ State.Connected then
    { impl := c, ret := Except.error "Not connected", events := [], writes := [] }
  else
    match env.writeErr with
    | none =>
      { impl := c, ret := Except.ok (), events := [Event.writeFrame], writes := [] }
    | some m =>
      { impl := { c with last_error := some m }, ret := Except.error m,
        events := [Event.writeFrame], writes := [] }

/-- WebSocketClient::Impl::receive (WebSocketClient.cpp:162-181).  Under the
    lock: if not `Connected`, throw "Not connected" without touching
    anything; otherwise read one frame and invoke the callback synchronously
    with its payload (the payload is the `ok` value here); a read fault is
    recorded in `last_error_` and rethrown; `state_` is never assigned. -/
def receive (env : Env) (c : Impl) : OpResult String :=
  if c.state ≠ State.Connected then
    { impl := c, ret := Except.error "Not connected", events := [], writes := [] }
  else
    match env.readErr with
    | none =>
      { impl := c, ret := Except.ok env.readData, events := [Event.readFrame],
        writes := [] }
    | some m =>
      { impl := { c with last_error := some m }, ret := Except.error m,
        events := [Event.readFrame], writes := [] }

/-- WebSocketClient::Impl::get_state (WebSocketClient.cpp:187-189). -/
def get_state (c : Impl) : State := c.state

/-- WebSocketClient::Impl::get_last_error (WebSocketClient.cpp:195-197). -/
def get_last_error (c : Impl) : Option String := c.last_error

/-- The message of the first connect step that fails under `env`, in the
    order the steps run (resolve, TCP connect, SSL handshake, WebSocket
    handshake), or `none` when all four succeed. -/
def firstFailure (env : Env) : Option String :=
  match env.resolveErr with
  | some m => some m
  | none =>
    match env.tcpErr with
    | some m => some m
    | none =>
      match env.sslErr with
      | some m => some m
      | none => env.wsErr

/-- On an environment whose four connect steps all succeed, `connect` from a
    non-Connected state yields the Connected client with a cleared error
    slot, the full call order, and the writes Connecting then Connected. -/
theorem connect_ok (env : Env) (c : Impl) (h : ¬ c.state = State.Connected)
    (hf : firstFailure env = none) :
    connect env c =
      { impl := { c with state := State.Connected, last_error := none },
        ret := Except.ok (), events := connectOrder,
        writes := [State.Connecting, State.Connected] } := by
  rcases env with ⟨r, t, s, w, cl, wr, rd, d⟩
  rcases r with _ | m1 <;> rcases t with _ | m2 <;> rcases s with _ | m3 <;>
      rcases w with _ | m4 <;>
    simp only [firstFailure, reduceCtorEq] at hf <;>
    simp [connect, h, connectOrder]

/-- On an environment whose first failing connect step has message `m`,
    `connect` from a non-Connected state ends Disconnected with `m`
    recorded, rethrows `m`, and writes Connecting then Disconnected. -/
theorem connect_fail (env : Env) (c : Impl) (m : String)
    (h : ¬ c.state = State.Connected) (hf : firstFailure env = some m) :
    (connect env c).impl =
      { c with state := State.Disconnected, last_error := some m } ∧
    (connect env c).ret = Except.error m ∧
    (connect env c).writes = [State.Connecting, State.Disconnected] := by
  rcases env with ⟨r, t, s, w, cl, wr, rd, d⟩
  rcases r with _ | m1 <;> rcases t with _ | m2 <;> rcases s with _ | m3 <;>
      rcases w with _ | m4 <;>
    simp only [firstFailure, reduceCtorEq, Option.some.injEq] at hf <;>
    subst hf <;>
    simp [connect, h, connectOrder]

/-- One call of the command-driven caller: the four stateful operations of
    the implementation. -/
inductive Op where
  | connectOp
  | disconnectOp
  | sendOp (message : String)
  | receiveOp
deriving DecidableEq

/-- Final implementation state and `state_` writes of one operation. -/
def stepOp (env : Env) (c : Impl) : Op → Impl × List State
  | Op.connectOp => ((connect env c).impl, (connect env c).writes)
  | Op.disconnectOp => ((disconnect env c).impl, (disconnect env c).writes)
  | Op.sendOp message => ((send env c message).impl, (send env c message).writes)
  | Op.receiveOp => ((receive env c).impl, (receive env c).writes)

/-- Run a sequence of operations, each under its own oracle, collecting the
    final implementation state and every `state_` write in order. -/
def runProg (c : Impl) : List (Env × Op) → Impl × List State
  | [] => (c, [])
  | (env, op) :: rest =>
    let r := stepOp env c op
    let rr := runProg r.1 rest
    (rr.1, r.2 ++ rr.2)

/-- Legal transitions of the lifecycle state machine: writing the current
    value back (no state change), Disconnected to Connecting, Connecting to
    Connected, Connecting to Disconnected, and Connected to Disconnected. -/
def legalStep (a b : State) : Bool :=
  a == b ||
  (a == State.Disconnected && b == State.Connecting) ||
  (a == State.Connecting && b == State.Connected) ||
  (a == State.Connecting && b == State.Disconnected) ||
  (a == State.Connected && b == State.Disconnected)

/-- Every consecutive pair of a write sequence starting from `s` is a legal
    transition. -/
def chainFrom (s : State) : List State → Bool
  | [] => true
  | t :: ts => legalStep s t && chainFrom t ts

/-- The value of `state_` after a write sequence starting from `s`. -/
def lastFrom (s : State) : List State → State
  | [] => s
  | t :: ts => lastFrom t ts

/-- Chains decompose over concatenation of write sequences. -/
theorem chainFrom_append (s : State) (xs ys : List State) :
    chainFrom s (xs ++ ys) = (chainFrom s xs && chainFrom (lastFrom s xs) ys) := by
  induction xs generalizing s with
  | nil => simp [chainFrom, lastFrom]
  | cons t ts ih => simp [chainFrom, lastFrom, ih, Bool.and_assoc]

/-- The last write of a concatenation is the last write of its second part,
    started from the last write of the first. -/
theorem lastFrom_append (s : State) (xs ys : List State) :
    lastFrom s (xs ++ ys) = lastFrom (lastFrom s xs) ys := by
  induction xs generalizing s with
  | nil => simp [lastFrom]
  | cons t ts ih => simp [lastFrom, ih]

/-- Entering Connecting is legal from any non-Connected state. -/
theorem legalStep_to_connecting (s : State) (h : ¬ s = State.Connected) :
    legalStep s State.Connecting = true := by
  cases s <;> simp [legalStep] at h ⊢

/-- Entering Disconnected is legal from every state. -/
theorem legalStep_to_disconnected (s : State) :
    legalStep s State.Disconnected = true := by
  cases s <;> simp [legalStep]

/-- Completing the handshakes from Connecting is legal. -/
theorem legalStep_connecting_connected :
    legalStep State.Connecting State.Connected = true := rfl

/-- Reverting from Connecting on failure is legal. -/
theorem legalStep_connecting_disconnected :
    legalStep State.Connecting State.Disconnected = true := rfl

/-- Each single operation only writes `state_` along legal transitions, and
    its last write (if any) is the state it leaves behind. -/
theorem stepOp_chain (env : Env) (c : Impl) (op : Op) :
    chainFrom c.state (stepOp env c op).2 = true ∧
    lastFrom c.state (stepOp env c op).2 = (stepOp env c op).1.state := by
  cases op with
  | connectOp =>
    by_cases hc : c.state = State.Connected
    · simp [stepOp, connect, hc, chainFrom, lastFrom]
    · rcases hf : firstFailure env with _ | m
      · have hco := connect_ok env c hc hf
        simp [stepOp, hco, chainFrom, lastFrom,
              legalStep_to_connecting c.state hc, legalStep_connecting_connected]
      · obtain ⟨h1, h2, h3⟩ := connect_fail env c m hc hf
        simp [stepOp, h1, h3, chainFrom, lastFrom,
              legalStep_to_connecting c.state hc,
              legalStep_connecting_disconnected]
  | disconnectOp =>
    by_cases hc : c.state = State.Connected <;>
      cases hcl : env.closeErr <;>
      simp [stepOp, disconnect, hc, hcl, chainFrom, lastFrom,
            legalStep_to_disconnected]
  | sendOp message =>
    by_cases hc : c.state = State.Connected
    · cases hw : env.writeErr <;>
        simp [stepOp, send, hc, hw, chainFrom, lastFrom]
    · simp [stepOp, send, hc, chainFrom, lastFrom]
  | receiveOp =>
    by_cases hc : c.state = State.Connected
    · cases hr : env.readErr <;>
        simp [stepOp, receive, hc, hr, chainFrom, lastFrom]
    · simp [stepOp, receive, hc, chainFrom, lastFrom]

/-- Any run of operations only writes `state_` along legal transitions, and
    its last write is the final state. -/
theorem runProg_chain (c : Impl) (prog : List (Env × Op)) :
    chainFrom c.state (runProg c prog).2 = true ∧
    lastFrom c.state (runProg c prog).2 = (runProg c prog).1.state := by
  induction prog generalizing c with
  | nil => simp [runProg, chainFrom, lastFrom]
  | cons p rest ih =>
    obtain ⟨env, op⟩ := p
    obtain ⟨hst, hlast⟩ := stepOp_chain env c op
    obtain ⟨ih1, ih2⟩ := ih (stepOp env c op).1
    simp [runProg, chainFrom_append, lastFrom_append, hst, hlast, ih1, ih2]

/-- The operations declared by the public facade
    (WebSocketClient.h:144-225), by their declared names.  These are the
    spec's `connect, reconnect, disconnect, send, asyncSend, receive,
    asyncReceive, getState, isConnected, getLastError` in the source's
    snake_case spelling. -/
def facadeOps : List String :=
  ["connect", "reconnect", "disconnect", "send", "async_send",
   "receive", "async_receive", "get_state", "is_connected", "get_last_error"]

/-- Modelled from the spec: `reconnect()` is declared by the facade
    (WebSocketClient.h:151) but no definition of it exists anywhere in the
    repository sources; the spec fixes its behaviour as the composition of
    disconnect() followed by connect(), with no additional semantics.
    `envD` drives the disconnect phase, `envC` the connect phase. -/
def reconnect (envD envC : Env) (c : Impl) : OpResult Unit :=
  connect envC (disconnect envD c).impl

/-- The composition stated by the spec, written out literally: run
    disconnect(), then run connect() on its resulting state, and nothing
    else.  `reconnect` is compared against this. -/
def disconnectThenConnect (envD envC : Env) (c : Impl) : OpResult Unit :=
  let afterDisconnect := (disconnect envD c).impl
  connect envC afterDisconnect

/-- The public wrapper (`WebSocketClient`): a `std::unique_ptr<Impl>` ­—
    possibly null, because the defaulted move operations transfer it. -/
structure Client where
  pimpl : Option Impl

/-- Result of running a wrapper member: the underlying call's result, or
    the dereference of an empty `pimpl_` (the undefined-behaviour branch). -/
inductive CallResult (α : Type) where
  | ok (a : α)
  | nullDeref

/-- Construction (WebSocketClient.cpp:214-216): `pimpl_` holds a fresh
    implementation. -/
def Client.make (cfg : Config) : Client := { pimpl := some (mkImpl cfg) }

/-- Defaulted move operations (WebSocketClient.cpp:224-225): the target
    takes the implementation pointer; the source is left with an empty
    `pimpl_`.  First component: the moved-from source; second: the target. -/
def moveClient (c : Client) : Client × Client :=
  ({ pimpl := none }, { pimpl := c.pimpl })

/-- A moved-from client: what remains of `c` after `moveClient`. -/
def movedFrom (c : Client) : Client := (moveClient c).1

/-- WebSocketClient::connect (WebSocketClient.cpp:227-229): dereferences
    `pimpl_` with no null check. -/
def Client.connect (env : Env) (c : Client) : CallResult (OpResult Unit) :=
  match c.pimpl with
  | none => CallResult.nullDeref
  | some i => CallResult.ok (WSC.connect env i)

/-- WebSocketClient::disconnect (WebSocketClient.cpp:231-233): dereferences
    `pimpl_` with no null check. -/
def Client.disconnect (env : Env) (c : Client) : CallResult (OpResult Unit) :=
  match c.pimpl with
  | none => CallResult.nullDeref
  | some i => CallResult.ok (WSC.disconnect env i)

/-- WebSocketClient::send (WebSocketClient.cpp:235-237): dereferences
    `pimpl_` with no null check. -/
def Client.send (env : Env) (c : Client) (message : String) :
    CallResult (OpResult Unit) :=
  match c.pimpl with
  | none => CallResult.nullDeref
  | some i => CallResult.ok (WSC.send env i message)

/-- WebSocketClient::receive (WebSocketClient.cpp:239-241): dereferences
    `pimpl_` with no null check. -/
def Client.receive (env : Env) (c : Client) : CallResult (OpResult String) :=
  match c.pimpl with
  | none => CallResult.nullDeref
  | some i => CallResult.ok (WSC.receive env i)

/-- WebSocketClient::get_state (WebSocketClient.cpp:243-245): dereferences
    `pimpl_` with no null check. -/
def Client.get_state (c : Client) : CallResult State :=
  match c.pimpl with
  | none => CallResult.nullDeref
  | some i => CallResult.ok (WSC.get_state i)

/-- WebSocketClient::get_last_error (WebSocketClient.cpp:247-249):
    dereferences `pimpl_` with no null check. -/
def Client.get_last_error (c : Client) : CallResult (Option String) :=
  match c.pimpl with
  | none => CallResult.nullDeref
  | some i => CallResult.ok (WSC.get_last_error i)

/-- WebSocketClient::~WebSocketClient (WebSocketClient.cpp:218-222): tests
    `pimpl_` for null before any dereference; a Connected client gets a
    best-effort disconnect, then teardown completes normally. -/
def Client.destruct (env : Env) (c : Client) : CallResult Unit :=
  match c.pimpl with
  | none => CallResult.ok ()
  | some i =>
    if WSC.get_state i = State.Connected then
      let r := WSC.disconnect env i
      CallResult.ok ()
    else CallResult.ok ()

/-- The configuration the command-driven caller supplies (main.cpp:346). -/
def cfg0 : Config :=
  { host := "test.deribit.com", port := "443", path := "/ws/api/v2" }

/-- An oracle under which every library call succeeds. -/
def envOk : Env :=
  { resolveErr := none, tcpErr := none, sslErr := none, wsErr := none,
    closeErr := none, writeErr := none, readErr := none, readData := "ping" }

/-- An oracle whose address resolution throws. -/
def envResolveFail : Env := { envOk with resolveErr := some "resolve: Host not found" }

/-- An oracle whose transport connect is cancelled (for example by the
    timeout timer) and throws. -/
def envTimedOut : Env := { envOk with tcpErr := some "Operation canceled" }

/-- An oracle whose graceful close throws. -/
def envCloseFail : Env := { envOk with closeErr := some "close: broken pipe" }

/-- An oracle whose write and read both throw. -/
def envIoFail : Env :=
  { envOk with writeErr := some "write: broken pipe",
               readErr := some "write: broken pipe" }

/-- An oracle on which every library call throws with message "B". -/
def envAllFail : Env :=
  { resolveErr := some "B", tcpErr := some "B", sslErr := some "B",
    wsErr := some "B", closeErr := some "B", writeErr := some "B",
    readErr := some "B", readData := "" }

/-- A Disconnected client carrying a stale recorded error "E0". -/
def cStale : Impl :=
  { config := cfg0, state := State.Disconnected, last_error := some "E0" }

/-- A Connected client with a clear error slot. -/
def cConn : Impl :=
  { config := cfg0, state := State.Connected, last_error := none }

/-- The full result of disconnect(): always returns normally, always ends
    Disconnected, touches the transport (one close call) only when entered
    Connected, and never touches `last_error_`. -/
theorem disconnect_result (env : Env) (c : Impl) :
    disconnect env c =
      { impl := { c with state := State.Disconnected }, ret := Except.ok (),
        events := if c.state = State.Connected then [Event.closeFrame] else [],
        writes := [State.Disconnected] } := by
  by_cases hc : c.state = State.Connected <;> cases hcl : env.closeErr <;>
    simp [disconnect, hc, hcl]

/-- P1: connect() on an already-Connected client returns at once, performs
    no transport calls, and changes nothing. -/
theorem connect_noop (env : Env) (c : Impl) (h : c.state = State.Connected) :
    connect env c =
      { impl := c, ret := Except.ok (), events := [], writes := [] } := by
  simp [connect, h]

/-- The connect-phase calls always happen in the program order `connectOrder`;
    whatever happens, the emitted call sequence is an initial segment of it. -/
theorem connect_events_order (env : Env) (c : Impl)
    (h : ¬ c.state = State.Connected) :
    (connect env c).events =
      List.take (connect env c).events.length connectOrder := by
  rcases env with ⟨r, t, s, w, cl, wr, rd, d⟩
  rcases r with _ | m1 <;> rcases t with _ | m2 <;> rcases s with _ | m3 <;>
      rcases w with _ | m4 <;>
    simp [connect, h, connectOrder]

/-- C1: for every configuration, when connect() runs its steps (it is not
    already Connected) and any step — address resolution, transport
    connection, TLS handshake, or protocol handshake — fails with message
    `m`, then at return the state is Disconnected, getLastError() yields
    exactly `m`, and the failure is rethrown to the caller. -/
theorem C1_connect_step_failure (env : Env) (c : Impl) (m : String)
    (h : ¬ c.state = State.Connected) (hf : firstFailure env = some m) :
    get_state (connect env c).impl = State.Disconnected ∧
    get_last_error (connect env c).impl = some m ∧
    (connect env c).ret = Except.error m := by
  obtain ⟨h1, h2, h3⟩ := connect_fail env c m h hf
  exact ⟨by simp [get_state, h1], by simp [get_last_error, h1], h2⟩

/-- C1 witness: a failing address resolution at the concrete caller
    configuration. -/
theorem C1_connect_step_failure_witness :
    get_state (connect envResolveFail (mkImpl cfg0)).impl = State.Disconnected ∧
    get_last_error (connect envResolveFail (mkImpl cfg0)).impl =
      some "resolve: Host not found" ∧
    (connect envResolveFail (mkImpl cfg0)).ret =
      Except.error "resolve: Host not found" :=
  C1_connect_step_failure envResolveFail (mkImpl cfg0) "resolve: Host not found"
    (by decide) rfl

/-- C2 counterexample: on a connect attempt at the concrete caller
    configuration, the call sequence opens with the address resolution and
    the timeout timer is armed only afterwards — so it is false that every
    step is bounded by the connectTimeout timer (the timer would have to be
    armed before the resolution to bound it). -/
theorem C2_counterexample :
    (connect envOk (mkImpl cfg0)).events =
      [Event.resolve, Event.armTimer, Event.tcpConnect, Event.sslHandshake,
       Event.wsHandshake] ∧
    ¬ List.indexOf Event.armTimer (connect envOk (mkImpl cfg0)).events <
        List.indexOf Event.resolve (connect envOk (mkImpl cfg0)).events :=
  ⟨rfl, by decide⟩

/-- C2 (amended): connect(), when not already Connected, clears LastError
    and sets state to Connecting, then calls in order address resolution,
    timer arming, transport connection, TLS handshake, protocol handshake —
    the timeout timer is armed only after address resolution returns, so
    resolution itself is not bounded by it; a timer-triggered cancellation
    surfaces as the in-flight step throwing, and every connect attempt whose
    step fails with a non-empty message ends with state == Disconnected and
    a non-empty LastError. -/
theorem C2_amended (env : Env) (c : Impl) (h : ¬ c.state = State.Connected) :
    (connect env c).writes.head? = some State.Connecting ∧
    (connect env c).events =
      List.take (connect env c).events.length connectOrder ∧
    (firstFailure env = none →
      get_last_error (connect env c).impl = none ∧
      get_state (connect env c).impl = State.Connected) ∧
    (∀ m, firstFailure env = some m → ¬ m = "" →
      get_state (connect env c).impl = State.Disconnected ∧
      get_last_error (connect env c).impl = some m ∧
      ¬ get_last_error (connect env c).impl = some "" ∧
      ¬ get_last_error (connect env c).impl = none) := by
  refine ⟨?_, connect_events_order env c h, ?_, ?_⟩
  · rcases hf : firstFailure env with _ | m
    · simp [connect_ok env c h hf]
    · simp [(connect_fail env c m h hf).2.2]
  · intro hok
    simp [connect_ok env c h hok, get_last_error, get_state]
  · intro m hf hm
    obtain ⟨h1, h2, h3⟩ := connect_fail env c m h hf
    simp [get_state, get_last_error, h1, hm]

/-- C2 witness: a transport connection cancelled by the timer at the
    concrete caller configuration. -/
theorem C2_amended_witness :
    (connect envTimedOut (mkImpl cfg0)).writes.head? = some State.Connecting ∧
    (connect envTimedOut (mkImpl cfg0)).events =
      List.take (connect envTimedOut (mkImpl cfg0)).events.length connectOrder ∧
    (firstFailure envTimedOut = none →
      get_last_error (connect envTimedOut (mkImpl cfg0)).impl = none ∧
      get_state (connect envTimedOut (mkImpl cfg0)).impl = State.Connected) ∧
    (∀ m, firstFailure envTimedOut = some m → ¬ m = "" →
      get_state (connect envTimedOut (mkImpl cfg0)).impl = State.Disconnected ∧
      get_last_error (connect envTimedOut (mkImpl cfg0)).impl = some m ∧
      ¬ get_last_error (connect envTimedOut (mkImpl cfg0)).impl = some "" ∧
      ¬ get_last_error (connect envTimedOut (mkImpl cfg0)).impl = none) :=
  C2_amended envTimedOut (mkImpl cfg0) (by decide)

/-- C3 counterexample: the NotConnected fault thrown by send() on a
    Disconnected client leaves the previously recorded LastError "E0" in
    place instead of overwriting it with the fault's message, and a failing
    graceful close inside disconnect() leaves LastError empty instead of
    recording its message. -/
theorem C3_counterexample :
    (send envOk cStale "m").ret = Except.error "Not connected" ∧
    get_last_error (send envOk cStale "m").impl = some "E0" ∧
    ¬ get_last_error (send envOk cStale "m").impl = some "Not connected" ∧
    (disconnect envCloseFail cConn).ret = Except.ok () ∧
    get_last_error (disconnect envCloseFail cConn).impl = none ∧
    ¬ get_last_error (disconnect envCloseFail cConn).impl =
        some "close: broken pipe" :=
  ⟨rfl, rfl, by decide, rfl, rfl, by decide⟩

/-- C3 (amended): connect-step faults, write faults and read faults
    overwrite the single LastError slot, most recent write wins, with no
    accumulation or history; but the NotConnected fault thrown by
    send()/receive() outside the Connected state leaves LastError
    untouched, and a CloseFailure during disconnect() is logged only,
    likewise leaving LastError untouched. -/
theorem C3_amended (env : Env) (c : Impl) (m message : String) :
    (¬ c.state = State.Connected →
      get_last_error (send env c message).impl = get_last_error c ∧
      get_last_error (receive env c).impl = get_last_error c) ∧
    get_last_error (disconnect env c).impl = get_last_error c ∧
    (c.state = State.Connected → env.writeErr = some m →
      get_last_error (send env c message).impl = some m) ∧
    (c.state = State.Connected → env.readErr = some m →
      get_last_error (receive env c).impl = some m) ∧
    (¬ c.state = State.Connected → firstFailure env = some m →
      get_last_error (connect env c).impl = some m) := by
  refine ⟨?_, ?_, ?_, ?_, ?_⟩
  · intro h
    constructor <;> simp [send, receive, h]
  · simp [disconnect_result, get_last_error]
  · intro h hw
    simp [send, h, hw, get_last_error]
  · intro h hr
    simp [receive, h, hr, get_last_error]
  · intro h hf
    simp [get_last_error, (connect_fail env c m h hf).1]

/-- C3 witness: the amended recording discipline at a concrete client and
    an oracle on which every library call throws "B". -/
theorem C3_amended_witness :
    (¬ cConn.state = State.Connected →
      get_last_error (send envAllFail cConn "m").impl = get_last_error cConn ∧
      get_last_error (receive envAllFail cConn).impl = get_last_error cConn) ∧
    get_last_error (disconnect envAllFail cConn).impl = get_last_error cConn ∧
    (cConn.state = State.Connected → envAllFail.writeErr = some "B" →
      get_last_error (send envAllFail cConn "m").impl = some "B") ∧
    (cConn.state = State.Connected → envAllFail.readErr = some "B" →
      get_last_error (receive envAllFail cConn).impl = some "B") ∧
    (¬ cConn.state = State.Connected → firstFailure envAllFail = some "B" →
      get_last_error (connect envAllFail cConn).impl = some "B") :=
  C3_amended envAllFail cConn "B" "m"

/-- C4: in any state other than Connected, send() and receive() throw the
    NotConnected fault, perform no transport calls, and return the
    implementation completely unchanged (state and error slot included). -/
theorem C4_not_connected_rejects (env : Env) (c : Impl) (message : String)
    (h : ¬ c.state = State.Connected) :
    send env c message =
      { impl := c, ret := Except.error "Not connected", events := [],
        writes := [] } ∧
    receive env c =
      { impl := c, ret := Except.error "Not connected", events := [],
        writes := [] } := by
  constructor <;> simp [send, receive, h]

/-- C4 witness: send() and receive() on the freshly constructed
    Disconnected client. -/
theorem C4_not_connected_rejects_witness :
    send envOk (mkImpl cfg0) "ping" =
      { impl := mkImpl cfg0, ret := Except.error "Not connected",
        events := [], writes := [] } ∧
    receive envOk (mkImpl cfg0) =
      { impl := mkImpl cfg0, ret := Except.error "Not connected",
        events := [], writes := [] } :=
  C4_not_connected_rejects envOk (mkImpl cfg0) "ping" (by decide)

/-- C5: starting from the freshly constructed Disconnected client, any
    sequence of connect/disconnect/send/receive calls writes the state only
    along the legal transitions Disconnected to Connecting, Connecting to
    Connected, Connecting to Disconnected, Connected to Disconnected (plus
    rewrites of the current value, which change nothing); transitions such
    as Disconnected directly to Connected or Connected to Connecting are
    unreachable. -/
theorem C5_legal_transitions (cfg : Config) (prog : List (Env × Op)) :
    chainFrom (mkImpl cfg).state (runProg (mkImpl cfg) prog).2 = true :=
  (runProg_chain (mkImpl cfg) prog).1

/-- C6: disconnect() never propagates a fault and unconditionally ends
    Disconnected; invoked while already Disconnected it performs no
    transport calls and leaves the implementation unchanged; calling it
    twice in succession returns normally both times, ends Disconnected both
    times, and the second call performs no transport calls. -/
theorem C6_disconnect_idempotent (env env2 : Env) (c : Impl) :
    (disconnect env c).ret = Except.ok () ∧
    get_state (disconnect env c).impl = State.Disconnected ∧
    (c.state = State.Disconnected →
      (disconnect env c).events = [] ∧ (disconnect env c).impl = c) ∧
    (disconnect env2 (disconnect env c).impl).ret = Except.ok () ∧
    (disconnect env2 (disconnect env c).impl).events = [] ∧
    get_state (disconnect env2 (disconnect env c).impl).impl =
      State.Disconnected := by
  refine ⟨?_, ?_, ?_, ?_, ?_, ?_⟩
  · simp [disconnect_result]
  · simp [disconnect_result, get_state]
  · intro hd
    constructor
    · simp [disconnect_result, hd]
    · rcases c with ⟨cc, cs, ce⟩
      simp only [disconnect_result]
      simp at hd
      simp [hd]
  · simp [disconnect_result]
  · simp [disconnect_result]
  · simp [disconnect_result, get_state]

/-- C6 witness: two successive disconnects of the freshly constructed
    client, under an oracle whose close would throw. -/
theorem C6_disconnect_idempotent_witness :
    (disconnect envCloseFail (mkImpl cfg0)).ret = Except.ok () ∧
    get_state (disconnect envCloseFail (mkImpl cfg0)).impl =
      State.Disconnected ∧
    ((mkImpl cfg0).state = State.Disconnected →
      (disconnect envCloseFail (mkImpl cfg0)).events = [] ∧
      (disconnect envCloseFail (mkImpl cfg0)).impl = mkImpl cfg0) ∧
    (disconnect envCloseFail (disconnect envCloseFail (mkImpl cfg0)).impl).ret =
      Except.ok () ∧
    (disconnect envCloseFail
        (disconnect envCloseFail (mkImpl cfg0)).impl).events = [] ∧
    get_state (disconnect envCloseFail
        (disconnect envCloseFail (mkImpl cfg0)).impl).impl =
      State.Disconnected :=
  C6_disconnect_idempotent envCloseFail envCloseFail (mkImpl cfg0)

/-- C7: on a Connected client, a write fault in send() or a read fault in
    receive() is recorded in LastError and rethrown to the caller, while
    the connection state stays Connected and `state_` is never written —
    only connect-phase failures change state. -/
theorem C7_io_fault_keeps_state (env : Env) (c : Impl) (message m : String)
    (h : c.state = State.Connected) :
    (env.writeErr = some m →
      get_last_error (send env c message).impl = some m ∧
      (send env c message).ret = Except.error m ∧
      get_state (send env c message).impl = State.Connected ∧
      (send env c message).writes = []) ∧
    (env.readErr = some m →
      get_last_error (receive env c).impl = some m ∧
      (receive env c).ret = Except.error m ∧
      get_state (receive env c).impl = State.Connected ∧
      (receive env c).writes = []) := by
  constructor <;> intro hio <;>
    simp [send, receive, h, hio, get_state, get_last_error]

/-- C7 witness: failing write and read on a concrete Connected client. -/
theorem C7_io_fault_keeps_state_witness :
    (envIoFail.writeErr = some "write: broken pipe" →
      get_last_error (send envIoFail cConn "m").impl =
        some "write: broken pipe" ∧
      (send envIoFail cConn "m").ret = Except.error "write: broken pipe" ∧
      get_state (send envIoFail cConn "m").impl = State.Connected ∧
      (send envIoFail cConn "m").writes = []) ∧
    (envIoFail.readErr = some "write: broken pipe" →
      get_last_error (receive envIoFail cConn).impl =
        some "write: broken pipe" ∧
      (receive envIoFail cConn).ret = Except.error "write: broken pipe" ∧
      get_state (receive envIoFail cConn).impl = State.Connected ∧
      (receive envIoFail cConn).writes = []) :=
  C7_io_fault_keeps_state envIoFail cConn "m" "write: broken pipe" rfl

/-- C8: LastError is cleared at the start of every connect attempt and
    reflects only failures recorded after that start: whatever a first
    connect() recorded, after a subsequent successful connect() the query
    getLastError() is absent. -/
theorem C8_last_error_post_start (env1 env2 : Env) (c : Impl)
    (h : ¬ c.state = State.Connected) (h2 : firstFailure env2 = none) :
    get_last_error (connect env2 (connect env1 c).impl).impl = none := by
  rcases hf : firstFailure env1 with _ | m
  · rw [connect_ok env1 c h hf, connect_noop env2 _ (by simp)]
    simp [get_last_error]
  · obtain ⟨h1, _, _⟩ := connect_fail env1 c m h hf
    have hd : ¬ ({ c with state := State.Disconnected, last_error := some m } :
        Impl).state = State.Connected := by simp
    simp [h1, connect_ok env2 _ hd h2, get_last_error]

/-- C8 witness: connect() failing with a resolution error "resolve: Host
    not found", then a successful connect(); the recorded error is gone. -/
theorem C8_last_error_post_start_witness :
    get_last_error
      (connect envOk (connect envResolveFail (mkImpl cfg0)).impl).impl =
      none :=
  C8_last_error_post_start envResolveFail envOk (mkImpl cfg0) (by decide) rfl

/-- C9: the facade declares every operation the spec lists — connect,
    reconnect, disconnect, send, async_send (asyncSend), receive,
    async_receive (asyncReceive), get_state (getState), is_connected
    (isConnected), get_last_error (getLastError) — and reconnect() is
    exactly the composition of disconnect() followed by connect(), with no
    additional semantics: it equals the spelled-out composition, and when
    the connect phase's steps all succeed it ends Connected with a clear
    error slot. -/
theorem C9_facade_reconnect (envD envC : Env) (c : Impl) :
    ("connect" ∈ facadeOps ∧ "reconnect" ∈ facadeOps ∧
     "disconnect" ∈ facadeOps ∧ "send" ∈ facadeOps ∧
     "async_send" ∈ facadeOps ∧ "receive" ∈ facadeOps ∧
     "async_receive" ∈ facadeOps ∧ "get_state" ∈ facadeOps ∧
     "is_connected" ∈ facadeOps ∧ "get_last_error" ∈ facadeOps) ∧
    reconnect envD envC c = disconnectThenConnect envD envC c ∧
    (firstFailure envC = none →
      get_state (reconnect envD envC c).impl = State.Connected ∧
      get_last_error (reconnect envD envC c).impl = none) := by
  refine ⟨by simp [facadeOps], rfl, ?_⟩
  intro hok
  have hd : ¬ ((disconnect envD c).impl).state = State.Connected := by
    simp [disconnect_result]
  simp [reconnect, connect_ok envC _ hd hok, get_state, get_last_error]

/-- C9 witness: reconnect on the concrete Connected client under the
    all-success oracle. -/
theorem C9_facade_reconnect_witness :
    ("connect" ∈ facadeOps ∧ "reconnect" ∈ facadeOps ∧
     "disconnect" ∈ facadeOps ∧ "send" ∈ facadeOps ∧
     "async_send" ∈ facadeOps ∧ "receive" ∈ facadeOps ∧
     "async_receive" ∈ facadeOps ∧ "get_state" ∈ facadeOps ∧
     "is_connected" ∈ facadeOps ∧ "get_last_error" ∈ facadeOps) ∧
    reconnect envOk envOk cConn = disconnectThenConnect envOk envOk cConn ∧
    (firstFailure envOk = none →
      get_state (reconnect envOk envOk cConn).impl = State.Connected ∧
      get_last_error (reconnect envOk envOk cConn).impl = none) :=
  C9_facade_reconnect envOk envOk cConn

/-- C10: after a move the source client's implementation pointer is empty,
    and only destruction checks the pointer before use: each forwarding
    member — connect, disconnect, send, receive, get_state, get_last_error —
    called on a moved-from client dereferences the empty pointer (the
    undefined-behaviour branch is reached), while destruction of a
    moved-from client checks `pimpl_` first and completes safely. -/
theorem C10_moved_from_deref (env : Env) (c : Client) (message : String) :
    (movedFrom c).pimpl = none ∧
    Client.connect env (movedFrom c) = CallResult.nullDeref ∧
    Client.disconnect env (movedFrom c) = CallResult.nullDeref ∧
    Client.send env (movedFrom c) message = CallResult.nullDeref ∧
    Client.receive env (movedFrom c) = CallResult.nullDeref ∧
    Client.get_state (movedFrom c) = CallResult.nullDeref ∧
    Client.get_last_error (movedFrom c) = CallResult.nullDeref ∧
    Client.destruct env (movedFrom c) = CallResult.ok () :=
  ⟨rfl, rfl, rfl, rfl, rfl, rfl, rfl, rfl⟩

end WSC
